import Mathlib

set_option maxRecDepth 8192

/-!
Verification development for the `uuid7time` command-line tool
(`src/main.rs`): a shallow embedding of its data model and operations,
together with theorems about the behaviour described in `spec.md`.

Machine integers are modelled as `Nat`/`Int` (Rust `u64`/`i64`), strings
as Lean `String` (logically a list of `Char`), fallible operations as
`Except`/`Option`.  Library behaviour the program relies on (the `uuid`
crate's parser, `chrono`'s calendar conversion and RFC 3339 printing,
`clap`'s conflict checking, `serde_json`'s serialization) is embedded by
faithful Lean definitions, documented at each definition.
-/

/-- Equality on `Except` results is decidable when it is on both sides;
used to evaluate the program model on concrete inputs. -/
instance {ε α : Type} [DecidableEq ε] [DecidableEq α] : DecidableEq (Except ε α) := fun x y =>
  match x, y with
  | Except.ok a, Except.ok b =>
    if h : a = b then isTrue (by rw [h]) else isFalse (by intro hh; cases hh; exact h rfl)
  | Except.error a, Except.error b =>
    if h : a = b then isTrue (by rw [h]) else isFalse (by intro hh; cases hh; exact h rfl)
  | Except.ok _, Except.error _ => isFalse (by intro hh; cases hh)
  | Except.error _, Except.ok _ => isFalse (by intro hh; cases hh)

/-! ### Rust string primitives -/

/-- Code points of the Unicode White_Space class, which Rust's
`char::is_whitespace` (used by `str::trim`) tests. -/
def rustWhitespaceCodes : List Nat :=
  [9, 10, 11, 12, 13, 32, 133, 160, 5760,
   8192, 8193, 8194, 8195, 8196, 8197, 8198, 8199, 8200, 8201, 8202,
   8232, 8233, 8239, 8287, 12288]

/-- Rust `char::is_whitespace`. -/
def isRustWhitespace (c : Char) : Bool :=
  rustWhitespaceCodes.contains c.toNat

/-- Rust `str::trim`: remove whitespace characters from both ends. -/
def rustTrim (s : String) : String :=
  ⟨((s.data.dropWhile isRustWhitespace).reverse.dropWhile isRustWhitespace).reverse⟩

/-- Rust `str::to_lowercase`, restricted to its action on ASCII letters
(the program only compares the result against the ASCII keywords
"iso", "unix", "unix-ms", "json"; on ASCII input Rust's Unicode lowercasing
agrees with this map, and no non-ASCII character lowercases to a plain
ASCII letter). -/
def rustToLower (s : String) : String :=
  ⟨s.data.map (fun c => if 'A' ≤ c ∧ c ≤ 'Z' then Char.ofNat (c.toNat + 32) else c)⟩

/-! ### Decimal digit rendering (Rust `format!` zero-padded fields) -/

/-- The decimal digit character for `n % 10`. -/
def digitChar (n : Nat) : Char := Char.ofNat (48 + n % 10)

/-- Rust `{:02}` for values below 100 (all call sites pass month, day,
hour, minute, second, each below 100). -/
def pad2 (n : Nat) : String := ⟨[digitChar (n / 10), digitChar n]⟩

/-- Rust `{:03}` for values below 1000 (the call site passes a millisecond
remainder, below 1000). -/
def pad3 (n : Nat) : String := ⟨[digitChar (n / 100), digitChar (n / 10), digitChar n]⟩

/-- Rust `{:04}` for values below 10000 (the call site passes a year in
0..=9999). -/
def pad4 (n : Nat) : String :=
  ⟨[digitChar (n / 1000), digitChar (n / 100), digitChar (n / 10), digitChar n]⟩

/-! ### The 16-byte UUID value and the `uuid` crate's parser -/

/-- A parsed UUID: exactly 16 bytes (`uuid::Uuid`). -/
structure Uuidv where
  bytes : List Nat
  len16 : bytes.length = 16
  lt256 : ∀ b ∈ bytes, b < 256

/-- Numeric value of a hexadecimal digit character, accepting both cases. -/
def hexVal (c : Char) : Option Nat :=
  if '0' ≤ c ∧ c ≤ '9' then some (c.toNat - 48)
  else if 'a' ≤ c ∧ c ≤ 'f' then some (c.toNat - 87)
  else if 'A' ≤ c ∧ c ≤ 'F' then some (c.toNat - 55)
  else none

/-- Parse an even-length run of hexadecimal digits into bytes, two digits
per byte, most significant digit first. -/
def parsePairs : List Char → Option (List Nat)
  | [] => some []
  | c1 :: c2 :: rest =>
    match hexVal c1, hexVal c2, parsePairs rest with
    | some hi, some lo, some bs => some ((hi * 16 + lo) :: bs)
    | _, _, _ => none
  | _ => none

/-- Models `uuid::Uuid::parse_str` on its two common input shapes: the
32-hex-digit simple form and the canonical hyphenated 8-4-4-4-12 form.
(The crate additionally accepts braced and URN forms, which nothing in
this development needs; the error strings abbreviate the crate's
diagnostic text, which the program never inspects.) -/
def parse_str (s : String) : Except String Uuidv :=
  let cs := s.data
  let hex? : Option (List Char) :=
    if cs.length = 32 then some cs
    else if cs.length = 36 ∧ cs.getD 8 ' ' = '-' ∧ cs.getD 13 ' ' = '-' ∧
            cs.getD 18 ' ' = '-' ∧ cs.getD 23 ' ' = '-' then
      some (cs.take 8 ++ (cs.drop 9).take 4 ++ (cs.drop 14).take 4 ++
            (cs.drop 19).take 4 ++ cs.drop 24)
    else none
  match hex? with
  | none => Except.error "invalid UUID length or grouping"
  | some hx =>
    match parsePairs hx with
    | none => Except.error "invalid hexadecimal character"
    | some bs =>
      if h : bs.length = 16 ∧ ∀ b ∈ bs, b < 256 then Except.ok ⟨bs, h.1, h.2⟩
      else Except.error "invalid UUID byte count"

/-! ### Timestamp extraction (`extract_timestamp_ms`) -/

/-- Rust `u64::from_be_bytes`: big-endian byte list to an unsigned value
(each input byte is below 256, so the fold stays below 2^64). -/
def u64_from_be_bytes (bs : List Nat) : Nat :=
  bs.foldl (fun acc b => acc * 256 + b) 0

/-- Rust `as i64` applied to a `u64` value: reinterpret the low 64 bits
as a two's-complement signed integer. -/
def i64_of_u64 (v : Nat) : Int :=
  if v < 2 ^ 63 then (v : Int) else (v : Int) - 2 ^ 64

/-- `extract_timestamp_ms` from `src/main.rs`: the first 6 bytes of the
UUID, read big-endian with two leading zero bytes, form a `u64` that is
cast to `i64`. -/
def extract_timestamp_ms (u : Uuidv) : Except String Int :=
  let bytes := u.bytes
  let ts_ms := u64_from_be_bytes
    [0, 0, bytes.getD 0 0, bytes.getD 1 0, bytes.getD 2 0,
     bytes.getD 3 0, bytes.getD 4 0, bytes.getD 5 0]
  Except.ok (i64_of_u64 ts_ms)

/-! ### The `chrono` calendar model -/

/-- Proleptic-Gregorian civil date from a day count relative to
1970-01-01 (the standard era-decomposition algorithm, which `chrono`'s
`NaiveDate` conversion computes): returns (year, month, day). -/
def civilFromDays (days : Int) : Int × Int × Int :=
  let z := days + 719468
  let era := z / 146097
  let doe := z - era * 146097
  let yoe := (doe - doe / 1460 + doe / 36524 - doe / 146096) / 365
  let y := yoe + era * 400
  let doy := doe - (365 * yoe + yoe / 4 - yoe / 100)
  let mp := (5 * doy + 2) / 153
  let d := doy - (153 * mp + 2) / 5 + 1
  let m := mp + (if mp < 10 then 3 else (-9 : Int))
  (y + (if m ≤ 2 then 1 else 0), m, d)

/-- Models `chrono`'s `Utc.timestamp_millis_opt(ms).single()`: the result
exists exactly when the day count (Euclidean divisions, as `chrono` uses
`div_euclid`) fits in an `i32` and the resulting proleptic-Gregorian date
lies in `chrono`'s supported year range -262144..=262143; the two large
constants are the day numbers (relative to 0001-01-01 = day 1) of
-262144-01-01 and 262143-12-31.  UTC never yields an ambiguous local
time, so `.single()` is `Some` exactly when the conversion succeeds. -/
def timestampMillisOpt (ms : Int) : Option Int :=
  let secs := ms / 1000
  let days := secs / 86400
  if -2147483648 ≤ days ∧ days ≤ 2147483647 ∧
     -95746495 ≤ days + 719163 ∧ days + 719163 ≤ 95745764
  then some ms else none

/-- Year field of `chrono`'s RFC 3339 printing: years in 0..=9999 are
printed as 4 zero-padded digits; other years via Rust `{:+05}` (an
explicit sign followed by the digits, zero-padded to 4). -/
def yearStr (y : Int) : String :=
  if 0 ≤ y ∧ y ≤ 9999 then pad4 y.toNat
  else if 9999 < y then "+" ++ toString y.toNat
  else "-" ++ (if -y ≤ 9999 then pad4 (-y).toNat else toString (-y).toNat)

/-- The date-and-time body of `chrono`'s RFC 3339 rendering of `ms`
milliseconds since the Unix epoch in UTC: everything up to (and not
including) the fractional-seconds point. -/
def dateTimeCore (ms : Int) : String :=
  let secs := ms / 1000
  let days := secs / 86400
  let sod := (secs % 86400).toNat
  let ymd := civilFromDays days
  yearStr ymd.1 ++ "-" ++ pad2 ymd.2.1.toNat ++ "-" ++ pad2 ymd.2.2.toNat ++ "T" ++
  pad2 (sod / 3600) ++ ":" ++ pad2 (sod % 3600 / 60) ++ ":" ++ pad2 (sod % 60)

/-- Models `dt.to_rfc3339_opts(SecondsFormat::Millis, use_z)` for the UTC
datetime of `ms` milliseconds since the epoch: date and time, a point,
exactly three millisecond digits, then `Z` or the zero offset `+00:00`. -/
def formatDt (ms : Int) (useZ : Bool) : String :=
  dateTimeCore ms ++ "." ++ pad3 (ms % 1000).toNat ++
  (if useZ then "Z" else "+00:00")

/-! ### Command-line model (`Cli`, clap, `OutputFormat`) -/

/-- The parsed command line (struct `Cli` in `src/main.rs`).  `format`
carries clap's `default_value = "iso"` when the user did not pass
`--format`; `formatGiven` records whether `--format` was supplied
explicitly (clap's conflict checking only looks at explicitly supplied
arguments). -/
structure Cli where
  uuids : List String
  format : String
  formatGiven : Bool
  unix : Bool
  unix_ms : Bool
  json : Bool
  quiet : Bool

/-- Models clap's argument validation for the derive attributes in
`src/main.rs`: each of `unix`, `unix_ms`, `json` declares
`conflicts_with = "format"` and nothing else, so parsing rejects exactly
the command lines that supply `--format` explicitly together with at
least one shorthand switch.  (No conflict is declared between the
shorthand switches themselves.) -/
def clapAccepts (cli : Cli) : Bool :=
  !(cli.formatGiven && (cli.unix || cli.unix_ms || cli.json))

/-- The four output formats (enum `OutputFormat`). -/
inductive OutputFormat where
  | Iso
  | Unix
  | UnixMs
  | Json
deriving DecidableEq

/-- `OutputFormat::from_cli` from `src/main.rs`. -/
def OutputFormat.from_cli (cli : Cli) : Except String OutputFormat :=
  if cli.unix then Except.ok OutputFormat.Unix
  else if cli.unix_ms then Except.ok OutputFormat.UnixMs
  else if cli.json then Except.ok OutputFormat.Json
  else
    match rustToLower cli.format with
    | "iso" => Except.ok OutputFormat.Iso
    | "unix" => Except.ok OutputFormat.Unix
    | "unix-ms" => Except.ok OutputFormat.UnixMs
    | "json" => Except.ok OutputFormat.Json
    | _ => Except.error ("Unknown format: " ++ cli.format ++ ". Use: iso, unix, unix-ms, json")

/-! ### JSON output (`JsonOutput`, serde_json) -/

/-- Struct `JsonOutput` from `src/main.rs`. -/
structure JsonOutput where
  uuid : String
  timestamp_ms : Int
  timestamp_sec : Int
  iso8601 : String
  rfc3339 : String

/-- The `JsonOutput` value built in the `Json` branch of
`format_timestamp`: Rust `/` on `i64` truncates toward zero
(`Int.tdiv`). -/
def mkJsonOutput (uuid_str : String) (ts_ms : Int) : JsonOutput :=
  { uuid := uuid_str
    timestamp_ms := ts_ms
    timestamp_sec := ts_ms.tdiv 1000
    iso8601 := formatDt ts_ms true
    rfc3339 := formatDt ts_ms false }

/-- Lowercase hexadecimal digit, as serde_json prints in esc sequences. -/
def hexDigitChar (n : Nat) : Char :=
  if n < 10 then Char.ofNat (48 + n) else Char.ofNat (87 + n)

/-- serde_json's escaping of one character inside a JSON string. -/
def escChar (c : Char) : List Char :=
  if c = '"' then ['\\', '"']
  else if c = '\\' then ['\\', '\\']
  else if c = '\x08' then ['\\', 'b']
  else if c = '\t' then ['\\', 't']
  else if c = '\n' then ['\\', 'n']
  else if c = '\x0c' then ['\\', 'f']
  else if c = '\r' then ['\\', 'r']
  else if c.toNat < 32 then
    ['\\', 'u', '0', '0', hexDigitChar (c.toNat / 16), hexDigitChar (c.toNat % 16)]
  else [c]

/-- serde_json's rendering of a string value, quotes included. -/
def jsonString (s : String) : String :=
  "\"" ++ ⟨s.data.foldr (fun c acc => escChar c ++ acc) []⟩ ++ "\""

/-- Models `serde_json::to_string(&JsonOutput)`: field order as declared,
no spaces, integers in decimal. -/
def jsonSerialize (r : JsonOutput) : String :=
  "\x7b\"uuid\":" ++ jsonString r.uuid ++
  ",\"timestamp_ms\":" ++ toString r.timestamp_ms ++
  ",\"timestamp_sec\":" ++ toString r.timestamp_sec ++
  ",\"iso8601\":" ++ jsonString r.iso8601 ++
  ",\"rfc3339\":" ++ jsonString r.rfc3339 ++ "\x7d"

/-! ### `format_timestamp` and `process_uuid` -/

/-- `format_timestamp` from `src/main.rs`: convert to a UTC datetime
(failing with "Timestamp out of range" when `chrono` cannot represent the
instant), then render according to the format.  Rust `/` on `i64`
truncates (`Int.tdiv`); serde_json serialization of `JsonOutput` cannot
fail, so the `Json` branch always succeeds. -/
def format_timestamp (uuid_str : String) (ts_ms : Int) (format : OutputFormat) :
    Except String String :=
  if (timestampMillisOpt ts_ms).isSome then
    match format with
    | OutputFormat.Iso => Except.ok (formatDt ts_ms true)
    | OutputFormat.Unix => Except.ok (toString (ts_ms.tdiv 1000))
    | OutputFormat.UnixMs => Except.ok (toString ts_ms)
    | OutputFormat.Json => Except.ok (jsonSerialize (mkJsonOutput uuid_str ts_ms))
  else Except.error "Timestamp out of range"

/-- `process_uuid` from `src/main.rs`: trim the candidate, parse it,
extract the timestamp, format it; the parse error is prefixed with
"Invalid UUID: ". -/
def process_uuid (uuid_str : String) (format : OutputFormat) : Except String String :=
  match parse_str (rustTrim uuid_str) with
  | Except.error e => Except.error ("Invalid UUID: " ++ e)
  | Except.ok uuid =>
    match extract_timestamp_ms uuid with
    | Except.error e => Except.error e
    | Except.ok ts_ms => format_timestamp (rustTrim uuid_str) ts_ms format

/-! ### Input collection and the batch driver (`main`) -/

/-- Standard-input collection in `main`: each element of the input list
is one line as the `lines()` iterator yields it (`none` for a line whose
read failed).  `filter_map(|line| line.ok())` drops unreadable lines;
`filter(|line| !line.trim().is_empty())` drops lines that are empty after
trimming but keeps the surviving lines untrimmed. -/
def collectStdin (lines : List (Option String)) : List String :=
  (lines.filterMap id).filter (fun l => !(rustTrim l == ""))

/-- The per-item loop of `main`: returns the standard-output lines, the
standard-error lines, and the `had_error` flag.  A failed item prints
"Error: ..." (suppressed under `--quiet`), sets the flag, and processing
continues with the remaining candidates. -/
def runBatch (quiet : Bool) (format : OutputFormat) : List String → List String × List String × Bool
  | [] => ([], [], false)
  | s :: rest =>
    let r := runBatch quiet format rest
    match process_uuid s format with
    | Except.ok out => (out :: r.1, r.2.1, r.2.2)
    | Except.error e => (r.1, (if quiet then [] else ["Error: " ++ e]) ++ r.2.1, true)

/-- `main` from `src/main.rs`, after clap has accepted the command line:
resolve the format (an unguarded error print and exit 1 on failure),
collect candidates from the positional arguments or standard input, fail
with the no-input message (suppressed under `--quiet`) when there are
none, otherwise run the batch; exit status 1 exactly when `had_error`.
Returns (standard-output lines, standard-error lines, exit status). -/
def runProgram (cli : Cli) (stdin : List (Option String)) :
    List String × List String × Nat :=
  match OutputFormat.from_cli cli with
  | Except.error e => ([], ["Error: " ++ e], 1)
  | Except.ok format =>
    let uuid_inputs := if cli.uuids.isEmpty then collectStdin stdin else cli.uuids
    if uuid_inputs.isEmpty then
      ([], if cli.quiet then [] else
        ["Error: No UUID provided. Use --help for usage information."], 1)
    else
      let r := runBatch cli.quiet format uuid_inputs
      (r.1, r.2.1, if r.2.2 then 1 else 0)

/-! ### Shared helper lemmas -/

/-- Equality of parsed UUID values is decided by their byte lists. -/
instance : DecidableEq Uuidv := fun a b =>
  if h : a.bytes = b.bytes then
    isTrue (by cases a; cases b; simp only at h; subst h; rfl)
  else isFalse (fun hh => h (congrArg Uuidv.bytes hh))

lemma getD_lt_of_forall (l : List Nat) (hl : ∀ b ∈ l, b < 256) :
    ∀ i, l.getD i 0 < 256 := by
  induction l with
  | nil => intro i; simp [List.getD]
  | cons a t ih =>
    intro i
    cases i with
    | zero => simpa using hl a (by simp)
    | succ j =>
      simp only [List.getD_cons_succ]
      exact ih (fun b hb => hl b (by simp [hb])) j

lemma uuid_byte_lt_256 (u : Uuidv) (i : Nat) : u.bytes.getD i 0 < 256 :=
  getD_lt_of_forall u.bytes u.lt256 i

lemma digitChar_isDigit (n : Nat) : (digitChar n).isDigit = true := by
  unfold digitChar
  have h : n % 10 < 10 := Nat.mod_lt _ (by norm_num)
  generalize n % 10 = m at h
  interval_cases m <;> decide

lemma formatDt_data (ms : Int) (z : Bool) :
    (formatDt ms z).data =
      (dateTimeCore ms).data ++
      ['.', digitChar ((ms % 1000).toNat / 100), digitChar ((ms % 1000).toNat / 10),
       digitChar (ms % 1000).toNat] ++
      (if z then ['Z'] else ['+', '0', '0', ':', '0', '0']) := by
  have hdot : (("." : String)).data = ['.'] := by decide
  have hz : (("Z" : String)).data = ['Z'] := by decide
  have hoff : (("+00:00" : String)).data = ['+', '0', '0', ':', '0', '0'] := by decide
  cases z <;>
    simp [formatDt, pad3, String.data_append, hdot, hz, hoff, List.append_assoc]

lemma getLast?_of_concat {l t : List Char} {a : Char} (h : t = l ++ [a]) :
    t.getLast? = some a := by
  subst h; exact List.getLast?_concat l

lemma runBatch_out (q : Bool) (f : OutputFormat) (l : List String) :
    (runBatch q f l).1 = l.filterMap (fun s => (process_uuid s f).toOption) := by
  induction l with
  | nil => rfl
  | cons s rest ih =>
    simp only [runBatch]
    cases h : process_uuid s f <;>
      simp [h, List.filterMap_cons, ih, Except.toOption]

lemma runBatch_had (q : Bool) (f : OutputFormat) (l : List String) :
    (runBatch q f l).2.2 = l.any (fun s => !(process_uuid s f).isOk) := by
  induction l with
  | nil => rfl
  | cons s rest ih =>
    simp only [runBatch]
    cases h : process_uuid s f <;>
      simp [h, ih, Except.isOk, Except.toBool]

/-! ### Sample values used by concrete evaluations -/

/-- The 16 bytes of the RFC 9562 example UUIDv7
`017f22e2-79b0-7cc3-98c4-dc0c0c07398f`. -/
def sampleUuid : Uuidv :=
  ⟨[1, 127, 34, 226, 121, 176, 124, 195, 152, 196, 220, 12, 12, 7, 57, 143],
   by decide, by decide⟩

/-- The RFC 9562 example UUIDv7 in canonical text form. -/
def rfcUuid : String := "017f22e2-79b0-7cc3-98c4-dc0c0c07398f"

/-- The same UUID with a leading space, still parseable after trimming. -/
def spacedUuid : String := " 017f22e2-79b0-7cc3-98c4-dc0c0c07398f"

/-- A command line with the two shorthand switches `-u` and `-U` both set
and no explicit `--format` (so `format` holds clap's default). -/
def cliBothShorthands : Cli :=
  { uuids := [rfcUuid], format := "iso", formatGiven := false,
    unix := true, unix_ms := true, json := false, quiet := false }

/-- A command line passing `--format json` explicitly together with `-u`. -/
def cliConflict : Cli :=
  { uuids := [], format := "json", formatGiven := true,
    unix := true, unix_ms := false, json := false, quiet := false }

/-! ### Claim C1 -/

/-- C1: for every 16-byte UUID value, `extract_timestamp_ms` returns the
big-endian unsigned interpretation of bytes 0-5 as a 64-bit signed
integer; the result is in [0, 281474976710655], the operation never
fails, and it depends only on bytes 0-5. -/
theorem extract_timestamp_ms_spec (u : Uuidv) :
    extract_timestamp_ms u =
      Except.ok ((u.bytes.getD 0 0 * 1099511627776 + u.bytes.getD 1 0 * 4294967296 +
        u.bytes.getD 2 0 * 16777216 + u.bytes.getD 3 0 * 65536 +
        u.bytes.getD 4 0 * 256 + u.bytes.getD 5 0 : Nat) : Int) ∧
    (∀ n : Int, extract_timestamp_ms u = Except.ok n →
      0 ≤ n ∧ n ≤ 281474976710655) ∧
    (∀ v : Uuidv, (∀ i, i < 6 → v.bytes.getD i 0 = u.bytes.getD i 0) →
      extract_timestamp_ms v = extract_timestamp_ms u) := by
  have h0 := uuid_byte_lt_256 u 0
  have h1 := uuid_byte_lt_256 u 1
  have h2 := uuid_byte_lt_256 u 2
  have h3 := uuid_byte_lt_256 u 3
  have h4 := uuid_byte_lt_256 u 4
  have h5 := uuid_byte_lt_256 u 5
  have hmain : extract_timestamp_ms u =
      Except.ok ((u.bytes.getD 0 0 * 1099511627776 + u.bytes.getD 1 0 * 4294967296 +
        u.bytes.getD 2 0 * 16777216 + u.bytes.getD 3 0 * 65536 +
        u.bytes.getD 4 0 * 256 + u.bytes.getD 5 0 : Nat) : Int) := by
    simp only [extract_timestamp_ms, u64_from_be_bytes, List.foldl, i64_of_u64]
    rw [if_pos (by omega)]
    congr 1
    push_cast
    ring
  refine ⟨hmain, ?_, ?_⟩
  · intro n hn
    rw [hmain] at hn
    cases hn
    constructor
    · exact Int.ofNat_nonneg _
    · exact_mod_cast (by omega :
        u.bytes.getD 0 0 * 1099511627776 + u.bytes.getD 1 0 * 4294967296 +
        u.bytes.getD 2 0 * 16777216 + u.bytes.getD 3 0 * 65536 +
        u.bytes.getD 4 0 * 256 + u.bytes.getD 5 0 ≤ 281474976710655)
  · intro v hv
    have e0 := hv 0 (by norm_num)
    have e1 := hv 1 (by norm_num)
    have e2 := hv 2 (by norm_num)
    have e3 := hv 3 (by norm_num)
    have e4 := hv 4 (by norm_num)
    have e5 := hv 5 (by norm_num)
    simp only [extract_timestamp_ms, u64_from_be_bytes, List.foldl, e0, e1, e2, e3, e4, e5]

/-- Witness for C1 at the RFC 9562 example UUID. -/
theorem extract_timestamp_ms_spec_witness :
    extract_timestamp_ms sampleUuid = Except.ok 1645557742000 ∧
    (0 : Int) ≤ 1645557742000 ∧ (1645557742000 : Int) ≤ 281474976710655 := by
  have h := extract_timestamp_ms_spec sampleUuid
  have h1 : extract_timestamp_ms sampleUuid = Except.ok 1645557742000 := by decide
  exact ⟨h1, h.2.1 1645557742000 h1⟩

/-! ### Claim C3 -/

/-- C3 counterexample: with both `-u` and `-U` set (and no explicit
`--format`), clap accepts the command line, the resolver silently picks
`Unix`, and the UUID is processed successfully — no configuration error
is reported. -/
theorem format_flags_counterexample :
    clapAccepts cliBothShorthands = true ∧
    OutputFormat.from_cli cliBothShorthands = Except.ok OutputFormat.Unix ∧
    runProgram cliBothShorthands [] = (["1645557742"], [], 0) := by decide

/-- C3 amended: an explicit `--format` together with any shorthand switch
is rejected by argument parsing before any UUID is processed, but two or
more shorthand switches together are accepted and silently resolved by
precedence. -/
theorem format_flags_amended (cli : Cli) :
    (cli.formatGiven = true →
      (cli.unix = true ∨ cli.unix_ms = true ∨ cli.json = true) →
      clapAccepts cli = false) ∧
    ((cli.unix = true ∨ cli.unix_ms = true ∨ cli.json = true) →
      ∃ fmt, OutputFormat.from_cli cli = Except.ok fmt) := by
  constructor
  · intro hg hs
    rcases hs with h | h | h <;> simp [clapAccepts, hg, h]
  · intro hs
    by_cases hu : cli.unix
    · exact ⟨OutputFormat.Unix, by simp [OutputFormat.from_cli, hu]⟩
    · by_cases hm : cli.unix_ms
      · exact ⟨OutputFormat.UnixMs, by simp [OutputFormat.from_cli, hu, hm]⟩
      · by_cases hj : cli.json
        · exact ⟨OutputFormat.Json, by simp [OutputFormat.from_cli, hu, hm, hj]⟩
        · rcases hs with h | h | h <;> simp_all

/-- Witness for C3's amended statement at concrete command lines. -/
theorem format_flags_amended_witness :
    clapAccepts cliConflict = false ∧
    (∃ fmt, OutputFormat.from_cli cliConflict = Except.ok fmt) ∧
    (∃ fmt, OutputFormat.from_cli cliBothShorthands = Except.ok fmt) :=
  ⟨(format_flags_amended cliConflict).1 rfl (Or.inl rfl),
   (format_flags_amended cliConflict).2 (Or.inl rfl),
   (format_flags_amended cliBothShorthands).2 (Or.inl rfl)⟩

/-! ### Claim C4 -/

/-- C4 counterexample: the collector keeps the raw line " abc ", not the
trimmed line "abc". -/
theorem collector_counterexample :
    collectStdin [some " abc "] = [" abc "] ∧
    collectStdin [some " abc "] ≠ [rustTrim " abc "] := by decide

/-- C4 amended: reading standard input, an unreadable line is silently
skipped; a line that is empty after trimming is discarded; any other line
is kept raw (untrimmed) — the per-item processing trims it later. -/
theorem collector_amended (ls : List (Option String)) (l : String) :
    collectStdin (none :: ls) = collectStdin ls ∧
    (rustTrim l = "" → collectStdin (some l :: ls) = collectStdin ls) ∧
    (rustTrim l ≠ "" → collectStdin (some l :: ls) = l :: collectStdin ls) := by
  refine ⟨?_, ?_, ?_⟩
  · simp [collectStdin]
  · intro h
    simp [collectStdin, List.filter_cons, h]
  · intro h
    simp [collectStdin, List.filter_cons, h]

/-- Witness for C4's amended statement at concrete lines. -/
theorem collector_amended_witness :
    collectStdin [none, some "x"] = collectStdin [some "x"] ∧
    collectStdin [some "  ", some "x"] = collectStdin [some "x"] ∧
    collectStdin [some " abc ", some "x"] = " abc " :: collectStdin [some "x"] :=
  ⟨(collector_amended [some "x"] "irrelevant").1,
   (collector_amended [some "x"] "  ").2.1 (by decide),
   (collector_amended [some "x"] " abc ").2.2 (by decide)⟩

/-! ### Claim C5 -/

/-- C5 counterexample: for the candidate " 017f22e2-…" (leading space),
the emitted JSON object's `uuid` field holds the trimmed string, which
differs from the original candidate, and the emitted line differs from
the serialization the claim predicts. -/
theorem json_uuid_field_counterexample :
    process_uuid spacedUuid OutputFormat.Json =
      Except.ok (jsonSerialize (mkJsonOutput (rustTrim spacedUuid) 1645557742000)) ∧
    (mkJsonOutput (rustTrim spacedUuid) 1645557742000).uuid ≠ spacedUuid ∧
    process_uuid spacedUuid OutputFormat.Json ≠
      Except.ok (jsonSerialize (mkJsonOutput spacedUuid 1645557742000)) := by decide

/-- C5 amended: the emitted JSON object's `uuid` field holds the
candidate string with leading/trailing whitespace trimmed (equal to the
original exactly when the candidate carries no surrounding whitespace). -/
theorem json_uuid_field_amended (c : String) (u : Uuidv) (ts : Int)
    (hp : parse_str (rustTrim c) = Except.ok u)
    (he : extract_timestamp_ms u = Except.ok ts)
    (hr : (timestampMillisOpt ts).isSome = true) :
    process_uuid c OutputFormat.Json =
      Except.ok (jsonSerialize (mkJsonOutput (rustTrim c) ts)) ∧
    (mkJsonOutput (rustTrim c) ts).uuid = rustTrim c := by
  constructor
  · simp [process_uuid, hp, he, format_timestamp, hr]
  · rfl

/-- Witness for C5's amended statement at the spaced candidate. -/
theorem json_uuid_field_amended_witness :
    process_uuid spacedUuid OutputFormat.Json =
      Except.ok (jsonSerialize (mkJsonOutput (rustTrim spacedUuid) 1645557742000)) ∧
    (mkJsonOutput (rustTrim spacedUuid) 1645557742000).uuid = rustTrim spacedUuid :=
  json_uuid_field_amended spacedUuid sampleUuid 1645557742000
    (by decide) (by decide) (by decide)

/-! ### Claim C8 -/

/-- C8 counterexample: the spec's arithmetic for the scenario UUID is
wrong — bytes `01 7f 22 e2 79 b0` form 1645557742000 ms (the RFC 9562
example value), not 1645559580000, so none of the three predicted output
lines is produced. -/
theorem known_uuid_counterexample :
    parse_str rfcUuid = Except.ok sampleUuid ∧
    extract_timestamp_ms sampleUuid = Except.ok 1645557742000 ∧
    (1645557742000 : Int) ≠ 1645559580000 ∧
    process_uuid rfcUuid OutputFormat.Iso ≠ Except.ok "2022-02-22T19:53:00.000Z" ∧
    process_uuid rfcUuid OutputFormat.Unix ≠ Except.ok "1645559580" ∧
    process_uuid rfcUuid OutputFormat.UnixMs ≠ Except.ok "1645559580000" := by decide

/-- C8 amended: processing `017f22e2-79b0-7cc3-98c4-dc0c0c07398f` yields
the extracted timestamp 1645557742000 ms, and the emitted line is
`2022-02-22T19:22:22.000Z` under the default ISO format, `1645557742`
under `--unix`, and `1645557742000` under `--unix-ms`. -/
theorem known_uuid_amended :
    parse_str rfcUuid = Except.ok sampleUuid ∧
    extract_timestamp_ms sampleUuid = Except.ok 1645557742000 ∧
    process_uuid rfcUuid OutputFormat.Iso = Except.ok "2022-02-22T19:22:22.000Z" ∧
    process_uuid rfcUuid OutputFormat.Unix = Except.ok "1645557742" ∧
    process_uuid rfcUuid OutputFormat.UnixMs = Except.ok "1645557742000" := by decide

/-! ### Claim C2 -/

lemma runProgram_error (cli : Cli) (stdin : List (Option String)) (e : String)
    (hf : OutputFormat.from_cli cli = Except.error e) :
    runProgram cli stdin = ([], ["Error: " ++ e], 1) := by
  unfold runProgram
  rw [hf]

lemma runProgram_ok (cli : Cli) (stdin : List (Option String)) (f : OutputFormat)
    (hf : OutputFormat.from_cli cli = Except.ok f) :
    runProgram cli stdin =
      (if (if cli.uuids.isEmpty then collectStdin stdin else cli.uuids).isEmpty then
        ([], if cli.quiet then [] else
          ["Error: No UUID provided. Use --help for usage information."], 1)
      else
        ((runBatch cli.quiet f (if cli.uuids.isEmpty then collectStdin stdin else cli.uuids)).1,
         (runBatch cli.quiet f (if cli.uuids.isEmpty then collectStdin stdin else cli.uuids)).2.1,
         if (runBatch cli.quiet f
           (if cli.uuids.isEmpty then collectStdin stdin else cli.uuids)).2.2
         then 1 else 0)) := by
  unfold runProgram
  rw [hf]

/-- C2: the exit status is 0 exactly when the format resolved, the
candidate sequence is non-empty, and every candidate processed
successfully; it is 1 in every other case (empty batch, format error, or
at least one failure); and the standard-output lines are the outputs of
all successful candidates in order — a failed item never stops the
processing of later candidates. -/
theorem exit_status_spec (cli : Cli) (stdin : List (Option String)) :
    ((runProgram cli stdin).2.2 = 0 ∨ (runProgram cli stdin).2.2 = 1) ∧
    ((runProgram cli stdin).2.2 = 0 ↔
      ∃ fmt, OutputFormat.from_cli cli = Except.ok fmt ∧
        (if cli.uuids.isEmpty then collectStdin stdin else cli.uuids) ≠ [] ∧
        ∀ c ∈ (if cli.uuids.isEmpty then collectStdin stdin else cli.uuids),
          (process_uuid c fmt).isOk = true) ∧
    (∀ fmt, OutputFormat.from_cli cli = Except.ok fmt →
      (runProgram cli stdin).1 =
        (if cli.uuids.isEmpty then collectStdin stdin else cli.uuids).filterMap
          (fun c => (process_uuid c fmt).toOption)) := by
  cases hf : OutputFormat.from_cli cli with
  | error e =>
    rw [runProgram_error cli stdin e hf]
    refine ⟨Or.inr rfl, ?_, ?_⟩
    · constructor
      · intro h0
        cases h0
      · rintro ⟨fmt, hfmt, -⟩
        cases hfmt
    · intro fmt hfmt
      cases hfmt
  | ok f =>
    rw [runProgram_ok cli stdin f hf]
    by_cases hL : (if cli.uuids.isEmpty then collectStdin stdin else cli.uuids) = []
    · have hLe : (if cli.uuids.isEmpty then collectStdin stdin else cli.uuids).isEmpty = true :=
        List.isEmpty_iff.mpr hL
      rw [if_pos hLe]
      refine ⟨Or.inr rfl, ?_, ?_⟩
      · constructor
        · intro h0
          cases h0
        · rintro ⟨fmt, -, hne, -⟩
          exact absurd hL hne
      · intro fmt hfmt
        cases hfmt
        rw [hL]
        rfl
    · have hLe : (if cli.uuids.isEmpty then collectStdin stdin else cli.uuids).isEmpty = false := by
        rcases h : (if cli.uuids.isEmpty then collectStdin stdin else cli.uuids) with - | -
        · exact absurd h hL
        · rfl
      rw [if_neg (by rw [hLe]; exact Bool.false_ne_true)]
      refine ⟨?_, ?_, ?_⟩
      · by_cases hb : (runBatch cli.quiet f
            (if cli.uuids.isEmpty then collectStdin stdin else cli.uuids)).2.2 = true <;>
          simp [hb]
      · rw [runBatch_had]
        constructor
        · intro h0
          refine ⟨f, rfl, hL, ?_⟩
          intro c hc
          by_contra hno
          have hany : ((if cli.uuids.isEmpty then collectStdin stdin else cli.uuids).any
              (fun s => !(process_uuid s f).isOk)) = true :=
            List.any_eq_true.mpr ⟨c, hc, by simp [hno]⟩
          rw [hany] at h0
          cases h0
        · rintro ⟨fmt, hfmt, -, hall⟩
          cases hfmt
          have hany : ((if cli.uuids.isEmpty then collectStdin stdin else cli.uuids).any
              (fun s => !(process_uuid s f).isOk)) = false := by
            rw [List.any_eq_false]
            intro c hc
            simp [hall c hc]
          rw [hany]
          rfl
      · intro fmt hfmt
        cases hfmt
        exact runBatch_out cli.quiet f _

/-- Witness for C2: a one-element batch with a valid UUID exits 0, and
with a malformed second candidate the valid item is still printed. -/
theorem exit_status_spec_witness :
    (runProgram { uuids := [rfcUuid], format := "iso", formatGiven := false,
                  unix := false, unix_ms := false, json := false, quiet := false } []).2.2 = 0 ∧
    (runProgram { uuids := [rfcUuid, "not-a-uuid"], format := "iso", formatGiven := false,
                  unix := false, unix_ms := false, json := false, quiet := false } []).1 =
      ["2022-02-22T19:22:22.000Z"] := by
  constructor
  · exact (exit_status_spec _ []).2.1.mpr ⟨OutputFormat.Iso, by decide, by decide, by decide⟩
  · rw [(exit_status_spec _ []).2.2 OutputFormat.Iso (by decide)]
    decide

/-! ### Claim C6 -/

/-- C6: the resolver follows the precedence seconds-shorthand,
milliseconds-shorthand, JSON-shorthand, then the lowercased free-text
name matched against the four keywords (the clap default "iso" lands in
the first keyword case), and an unrecognized free-text name yields the
error message naming the offending text. -/
theorem from_cli_precedence (cli : Cli) :
    (cli.unix = true → OutputFormat.from_cli cli = Except.ok OutputFormat.Unix) ∧
    (cli.unix = false → cli.unix_ms = true →
      OutputFormat.from_cli cli = Except.ok OutputFormat.UnixMs) ∧
    (cli.unix = false → cli.unix_ms = false → cli.json = true →
      OutputFormat.from_cli cli = Except.ok OutputFormat.Json) ∧
    (cli.unix = false → cli.unix_ms = false → cli.json = false →
      ((rustToLower cli.format = "iso" →
          OutputFormat.from_cli cli = Except.ok OutputFormat.Iso) ∧
       (rustToLower cli.format = "unix" →
          OutputFormat.from_cli cli = Except.ok OutputFormat.Unix) ∧
       (rustToLower cli.format = "unix-ms" →
          OutputFormat.from_cli cli = Except.ok OutputFormat.UnixMs) ∧
       (rustToLower cli.format = "json" →
          OutputFormat.from_cli cli = Except.ok OutputFormat.Json) ∧
       (rustToLower cli.format ≠ "iso" → rustToLower cli.format ≠ "unix" →
        rustToLower cli.format ≠ "unix-ms" → rustToLower cli.format ≠ "json" →
        OutputFormat.from_cli cli =
          Except.error ("Unknown format: " ++ cli.format ++
            ". Use: iso, unix, unix-ms, json")))) := by
  refine ⟨?_, ?_, ?_, ?_⟩
  · intro h
    simp [OutputFormat.from_cli, h]
  · intro h1 h2
    simp [OutputFormat.from_cli, h1, h2]
  · intro h1 h2 h3
    simp [OutputFormat.from_cli, h1, h2, h3]
  · intro h1 h2 h3
    have hbase : OutputFormat.from_cli cli =
        (match rustToLower cli.format with
         | "iso" => Except.ok OutputFormat.Iso
         | "unix" => Except.ok OutputFormat.Unix
         | "unix-ms" => Except.ok OutputFormat.UnixMs
         | "json" => Except.ok OutputFormat.Json
         | _ => Except.error ("Unknown format: " ++ cli.format ++
             ". Use: iso, unix, unix-ms, json")) := by
      simp [OutputFormat.from_cli, h1, h2, h3]
    refine ⟨?_, ?_, ?_, ?_, ?_⟩
    · intro hs
      rw [hbase, hs]
      exact rfl
    · intro hs
      rw [hbase, hs]
      exact rfl
    · intro hs
      rw [hbase, hs]
      exact rfl
    · intro hs
      rw [hbase, hs]
      exact rfl
    · intro n1 n2 n3 n4
      rw [hbase]
      split
      · exact absurd ‹rustToLower cli.format = "iso"› n1
      · exact absurd ‹rustToLower cli.format = "unix"› n2
      · exact absurd ‹rustToLower cli.format = "unix-ms"› n3
      · exact absurd ‹rustToLower cli.format = "json"› n4
      · rfl

/-- Witness for C6 at concrete command lines: shorthand precedence,
case-insensitive free-text matching, and the error text for `bogus`. -/
theorem from_cli_precedence_witness :
    OutputFormat.from_cli cliBothShorthands = Except.ok OutputFormat.Unix ∧
    OutputFormat.from_cli
      { uuids := [], format := "Unix-MS", formatGiven := true,
        unix := false, unix_ms := false, json := false, quiet := false } =
      Except.ok OutputFormat.UnixMs ∧
    OutputFormat.from_cli
      { uuids := [], format := "bogus", formatGiven := true,
        unix := false, unix_ms := false, json := false, quiet := false } =
      Except.error "Unknown format: bogus. Use: iso, unix, unix-ms, json" :=
  ⟨(from_cli_precedence cliBothShorthands).1 rfl,
   ((from_cli_precedence _).2.2.2 rfl rfl rfl).2.2.1 (by decide),
   ((from_cli_precedence _).2.2.2 rfl rfl rfl).2.2.2.2
     (by decide) (by decide) (by decide) (by decide)⟩

/-! ### Claim C7 -/

/-- C7: for every in-range timestamp, the ISO8601 string is the shared
date-time body followed by a point, exactly three decimal digits and `Z`
(so it ends in `Z`); the `rfc3339` field of the JSON record is the same
body, point and digits followed by `+00:00` (so it never ends in `Z`);
sharing the body and fraction makes the two strings denote the identical
instant. -/
theorem iso_rfc3339_shape (u : String) (ms : Int)
    (h : (timestampMillisOpt ms).isSome = true) :
    ∃ p d1 d2 d3,
      format_timestamp u ms OutputFormat.Iso =
        Except.ok (String.mk (p ++ ['.', d1, d2, d3, 'Z'])) ∧
      (mkJsonOutput u ms).iso8601 = String.mk (p ++ ['.', d1, d2, d3, 'Z']) ∧
      (mkJsonOutput u ms).rfc3339 =
        String.mk (p ++ ['.', d1, d2, d3] ++ ['+', '0', '0', ':', '0', '0']) ∧
      d1.isDigit = true ∧ d2.isDigit = true ∧ d3.isDigit = true ∧
      (mkJsonOutput u ms).iso8601.data.getLast? = some 'Z' ∧
      (mkJsonOutput u ms).rfc3339.data.getLast? = some '0' := by
  refine ⟨(dateTimeCore ms).data, digitChar ((ms % 1000).toNat / 100),
    digitChar ((ms % 1000).toNat / 10), digitChar (ms % 1000).toNat,
    ?_, ?_, ?_, digitChar_isDigit _, digitChar_isDigit _, digitChar_isDigit _, ?_, ?_⟩
  · have hiso : formatDt ms true =
        String.mk ((dateTimeCore ms).data ++
          ['.', digitChar ((ms % 1000).toNat / 100), digitChar ((ms % 1000).toNat / 10),
           digitChar (ms % 1000).toNat, 'Z']) := by
      apply String.ext
      rw [formatDt_data]
      simp
    rw [← hiso]
    simp [format_timestamp, h]
  · apply String.ext
    show (formatDt ms true).data = _
    rw [formatDt_data]
    simp
  · apply String.ext
    show (formatDt ms false).data = _
    rw [formatDt_data]
    simp
  · apply getLast?_of_concat
      (l := (dateTimeCore ms).data ++
        ['.', digitChar ((ms % 1000).toNat / 100), digitChar ((ms % 1000).toNat / 10),
         digitChar (ms % 1000).toNat])
    show (formatDt ms true).data = _
    rw [formatDt_data]
    simp
  · apply getLast?_of_concat
      (l := (dateTimeCore ms).data ++
        ['.', digitChar ((ms % 1000).toNat / 100), digitChar ((ms % 1000).toNat / 10),
         digitChar (ms % 1000).toNat, '+', '0', '0', ':', '0'])
    show (formatDt ms false).data = _
    rw [formatDt_data]
    simp

/-- Witness for C7 at the RFC 9562 example timestamp. -/
theorem iso_rfc3339_shape_witness :
    (timestampMillisOpt 1645557742000).isSome = true ∧
    ∃ p d1 d2 d3,
      format_timestamp "w" 1645557742000 OutputFormat.Iso =
        Except.ok (String.mk (p ++ ['.', d1, d2, d3, 'Z'])) ∧
      (mkJsonOutput "w" 1645557742000).iso8601 = String.mk (p ++ ['.', d1, d2, d3, 'Z']) ∧
      (mkJsonOutput "w" 1645557742000).rfc3339 =
        String.mk (p ++ ['.', d1, d2, d3] ++ ['+', '0', '0', ':', '0', '0']) ∧
      d1.isDigit = true ∧ d2.isDigit = true ∧ d3.isDigit = true ∧
      (mkJsonOutput "w" 1645557742000).iso8601.data.getLast? = some 'Z' ∧
      (mkJsonOutput "w" 1645557742000).rfc3339.data.getLast? = some '0' :=
  ⟨by decide, iso_rfc3339_shape "w" 1645557742000 (by decide)⟩

/-! ### Claim C9 -/

/-- C9: every millisecond value in the 48-bit extraction range
[0, 281474976710655] is representable by the calendar conversion, so for
such values `format_timestamp` always succeeds and its
"Timestamp out of range" branch is unreachable. -/
theorem timestamp_in_range_safe (ms : Int) (h0 : 0 ≤ ms)
    (h1 : ms ≤ 281474976710655) :
    (timestampMillisOpt ms).isSome = true ∧
    (∀ u fmt, (format_timestamp u ms fmt).isOk = true) ∧
    (∀ u fmt, format_timestamp u ms fmt ≠ Except.error "Timestamp out of range") := by
  have hs : (timestampMillisOpt ms).isSome = true := by
    simp only [timestampMillisOpt]
    rw [if_pos]
    · rfl
    · omega
  refine ⟨hs, ?_, ?_⟩
  · intro u fmt
    cases fmt <;> simp [format_timestamp, hs, Except.isOk, Except.toBool]
  · intro u fmt
    cases fmt <;> simp [format_timestamp, hs]

/-- Witness for C9 at the largest 48-bit millisecond value. -/
theorem timestamp_in_range_safe_witness :
    (timestampMillisOpt 281474976710655).isSome = true ∧
    (format_timestamp "w" 281474976710655 OutputFormat.Iso).isOk = true ∧
    format_timestamp "w" 281474976710655 OutputFormat.Iso ≠
      Except.error "Timestamp out of range" := by
  have h := timestamp_in_range_safe 281474976710655 (by norm_num) (le_refl _)
  exact ⟨h.1, h.2.1 "w" OutputFormat.Iso, h.2.2 "w" OutputFormat.Iso⟩

/-! ### Claim C10 -/

/-- C10: the standard-output lines and the exit status of a run are
identical whether or not `--quiet` is set — the flag only affects what is
written to the error stream. -/
theorem quiet_noninterference (cli : Cli) (stdin : List (Option String)) (q1 q2 : Bool) :
    (runProgram { cli with quiet := q1 } stdin).1 =
      (runProgram { cli with quiet := q2 } stdin).1 ∧
    (runProgram { cli with quiet := q1 } stdin).2.2 =
      (runProgram { cli with quiet := q2 } stdin).2.2 := by
  have hf : ∀ q : Bool,
      OutputFormat.from_cli { cli with quiet := q } = OutputFormat.from_cli cli :=
    fun q => rfl
  cases hfc : OutputFormat.from_cli cli with
  | error e =>
    rw [runProgram_error _ stdin e ((hf q1).trans hfc),
        runProgram_error _ stdin e ((hf q2).trans hfc)]
    exact ⟨rfl, rfl⟩
  | ok f =>
    rw [runProgram_ok _ stdin f ((hf q1).trans hfc),
        runProgram_ok _ stdin f ((hf q2).trans hfc)]
    have hu1 : ({ cli with quiet := q1 } : Cli).uuids = cli.uuids := rfl
    have hu2 : ({ cli with quiet := q2 } : Cli).uuids = cli.uuids := rfl
    rw [hu1, hu2]
    set L := if cli.uuids.isEmpty then collectStdin stdin else cli.uuids with hLdef
    by_cases hL : L.isEmpty = true
    · rw [if_pos hL, if_pos hL]
      exact ⟨rfl, rfl⟩
    · rw [if_neg hL, if_neg hL]
      constructor
      · show (runBatch _ f L).1 = (runBatch _ f L).1
        rw [runBatch_out, runBatch_out]
      · show (if (runBatch ({ cli with quiet := q1 } : Cli).quiet f L).2.2 then (1 : Nat) else 0) =
          (if (runBatch ({ cli with quiet := q2 } : Cli).quiet f L).2.2 then (1 : Nat) else 0)
        rw [runBatch_had, runBatch_had]
